import Mathlib

/-!
Verification development for the gowinproc supervisor core: a shallow
embedding of the process manager, version manager, update pipeline,
hot-restart coordinator and gRPC load balancer, together with theorems
about the behaviours the specification describes.

External collaborators (the OS, the network, the filesystem, the GitHub
client, child processes) are modelled as oracle parameters supplied in
environment records; the repository's own control flow is translated
function by function.
-/

/- ===== pkg/models (config.go / version.go) ===== -/

/-- Status of a managed process instance (models.ProcessStatus). -/
inductive ProcessStatus
  | stopped
  | starting
  | running
  | stopping
  | failed
  | updating
  deriving DecidableEq, Repr

/-- One OS process under supervision (models.ProcessInstance; only the
fields the core logic reads are carried). -/
structure ProcessInstance where
  id : String
  processName : String := ""
  status : ProcessStatus
  pid : Int := 0
  port : Nat := 0
  deriving DecidableEq, Repr

/-- Static configuration of a managed process (models.ProcessConfig). -/
structure ProcessConfig where
  name : String
  repository : String := ""
  binaryPath : String := ""
  workDir : String := ""
  autoRestart : Bool := false
  maxInstances : Nat := 1
  deriving DecidableEq, Repr

/-- A managed process: its configuration plus the ordered list of live
instances (models.ManagedProcess). -/
structure ManagedProcess where
  config : ProcessConfig
  instances : List ProcessInstance := []
  deriving DecidableEq, Repr

/-- A release version record (models.Version; timestamps omitted). -/
structure Version where
  tag : String
  assetURL : String := ""
  assetName : String := ""
  isPrerelease : Bool := false
  deriving DecidableEq, Repr

/-- Per-process version bookkeeping (models.VersionInfo). -/
structure VersionInfo where
  processName : String
  currentVersion : Option Version := none
  latestVersion : Option Version := none
  updateAvailable : Bool := false
  history : List Version := []
  deriving DecidableEq, Repr

/-- Status of an update operation (models.UpdateStatus). Progress is a
float64 in the source; it is modelled as a rational number. -/
structure UpdateStatus where
  processName : String
  stage : String
  progress : Rat := 0
  message : String := ""
  error : String := ""
  completed : Bool
  deriving DecidableEq, Repr

/- ===== Go map as an association list ===== -/

/-- Assignment into a Go map (m[key] = v) modelled on an association list:
replaces the binding for key when present, otherwise appends it. -/
def storeSet {α : Type} (store : List (String × α)) (key : String) (v : α) :
    List (String × α) :=
  match store with
  | [] => [(key, v)]
  | (k, w) :: rest =>
    if k == key then (key, v) :: rest else (k, w) :: storeSet rest key v

/- ===== internal/version/manager.go ===== -/

/-- Version-manager state lookup (version/manager.go LoadVersionInfo):
the cached VersionInfo for the name, or a fresh empty record when the
name has never been seen. -/
def loadVersionInfo (store : List (String × VersionInfo)) (processName : String) :
    VersionInfo :=
  match List.lookup processName store with
  | some info => info
  | none => { processName := processName }

/-- Pure core of version/manager.go SetCurrentVersion (lines 91-116):
set the current version, add it at the head of history only when its tag
is not already somewhere in the history, and truncate history to 10. -/
def setCurrentVersionInfo (info : VersionInfo) (v : Version) : VersionInfo :=
  let info1 := { info with currentVersion := some v }
  let found := info1.history.any (fun w => w.tag == v.tag)
  if found then info1
  else { info1 with history := (v :: info1.history).take 10 }

/-- version/manager.go SetCurrentVersion on the whole store:
LoadVersionInfo, apply the mutation, SaveVersionInfo. -/
def SetCurrentVersion (store : List (String × VersionInfo)) (processName : String)
    (v : Version) : List (String × VersionInfo) :=
  storeSet store processName (setCurrentVersionInfo (loadVersionInfo store processName) v)

/-- Concrete versions used by the history counterexample. -/
def cexV1 : Version := { tag := "v1.0.0" }

def cexV2 : Version := { tag := "v1.1.0" }

/-- Store after setCurrent v1; setCurrent v2; setCurrent v1 for "svc":
the final setCurrent finds v1's tag already in history and leaves the
history head at v2 while current becomes v1. -/
def cexStore : List (String × VersionInfo) :=
  SetCurrentVersion (SetCurrentVersion (SetCurrentVersion [] "svc" cexV1) "svc" cexV2) "svc" cexV1

/- ===== path helpers (Go path/filepath collaborators) ===== -/

/-- Is c a path separator on Windows (os.IsPathSeparator)? -/
def isPathSep (c : Char) : Bool := c == '/' || c == '\\'

/-- Split a character list on a separator, like strings.Split /
String.splitOn restricted to a one-character separator. -/
def splitOnChar (sep : Char) : List Char → List (List Char)
  | [] => [[]]
  | c :: rest =>
    if c == sep then [] :: splitOnChar sep rest
    else
      match splitOnChar sep rest with
      | [] => [[c]]
      | h :: t => (c :: h) :: t

/-- Models path/filepath.ToSlash: replace every backslash with a slash. -/
def toSlash (s : String) : String :=
  String.mk (s.toList.map (fun c => if c == '\\' then '/' else c))

/-- Models path/filepath.Base: the last element of the path after removing
trailing separators; "." for the empty path, a separator when the path
consists only of separators.  Volume-name handling is irrelevant for the
repository identifiers this code applies it to. -/
def filepathBase (path : String) : String :=
  if path == "" then "."
  else
    let comps := ((splitOnChar '/' (toSlash path).toList).map String.mk).filter
      (fun s => !(s == ""))
    match comps.getLast? with
    | some c => c
    | none => "/"

/-- Models path/filepath.Join of two nonempty cleaned components.  The
slash separator is used throughout the model; only the component
structure of the resulting path matters to the properties proved here. -/
def joinPath (a b : String) : String := a ++ "/" ++ b

/-- Models path/filepath.IsAbs on Windows: an absolute path carries a
volume prefix such as "C:\" or "C:/". -/
def isAbsPath (path : String) : Bool :=
  match path.toList with
  | c :: ':' :: s :: _ => c.isAlpha && isPathSep s
  | _ => false

/- ===== internal/process/manager.go: version detection ===== -/

/-- Is s a nonempty run of decimal digits? -/
def allDigits (s : List Char) : Bool :=
  !s.isEmpty && s.all Char.isDigit

/-- Does s have the shape digits.digits.digits? -/
def semverTriple (s : List Char) : Bool :=
  match splitOnChar '.' s with
  | [a, b, c] => allDigits a && allDigits b && allDigits c
  | _ => false

/-- Try to read what follows an underscore as v?<d+.d+.d+>.exe reaching
the end of the filename, returning the numeric triple. -/
def parseVersionSuffix (s : List Char) : Option String :=
  let s1 := match s with
    | 'v' :: rest => rest
    | l => l
  if 4 ≤ s1.length && s1.drop (s1.length - 4) == ('.' :: ['e', 'x', 'e']) then
    let core := s1.take (s1.length - 4)
    if semverTriple core then some (String.mk core) else none
  else none

/-- Scan the filename left to right for the leftmost underscore whose
suffix matches the version pattern, as the anchored regular expression
match in extractVersionFromFilename does. -/
def findVersionCore : List Char → Option String
  | [] => none
  | c :: rest =>
    if c == '_' then
      match parseVersionSuffix rest with
      | some core => some core
      | none => findVersionCore rest
    else findVersionCore rest

/-- process/manager.go extractVersionFromFilename (lines 604-613): match
the basename against _v?(\d+\.\d+\.\d+)\.exe$ and re-emit the captured
triple with a leading v, or return the empty string. -/
def extractVersionFromFilename (binaryPath : String) : String :=
  match findVersionCore (filepathBase binaryPath).toList with
  | some core => "v" ++ core
  | none => ""

/- ===== internal/process/manager.go: port allocation ===== -/

/-- Loop body of findAvailablePort: n remaining attempts, current
candidate port; the TCP bind probe is the oracle listenOk. -/
def findAvailablePortAux (listenOk : Nat → Bool) (startPort : Nat) : Nat → Option Nat
  | 0 => none
  | n + 1 =>
    if listenOk startPort then some startPort
    else findAvailablePortAux listenOk (startPort + 1) n

/-- process/manager.go findAvailablePort (lines 665-682): probe up to
maxAttempts consecutive ports from startPort; the first successful bind
is returned, otherwise a distinguishable exhaustion error. -/
def findAvailablePort (listenOk : Nat → Bool) (startPort maxAttempts : Nat) :
    Except String Nat :=
  match findAvailablePortAux listenOk startPort maxAttempts with
  | some port => Except.ok port
  | none =>
    Except.error ("no available port found after " ++ toString maxAttempts ++
      " attempts starting from " ++ toString startPort)

/- ===== internal/process/manager.go: StartProcess ===== -/

/-- Error taxonomy of StartProcess; portExhausted is the distinguishable
port-probe exhaustion failure. -/
inductive StartError
  | notFound
  | maxInstances
  | portExhausted
  | detectFailed
  | envFailed
  | spawnFailed
  deriving DecidableEq, Repr

/-- Combined state threaded through StartProcess: the process manager's
registry and port cursor plus the version manager's store (the two
managers share their lifetime). -/
structure PMState where
  processes : List (String × ManagedProcess)
  nextPort : Nat
  versions : List (String × VersionInfo)
  deriving DecidableEq, Repr

/-- process/manager.go NewManager (lines 44-56): port allocation starts
from 5001. -/
def NewManager (processes : List (String × ManagedProcess)) : PMState :=
  { processes := processes, nextPort := 5001, versions := [] }

/-- Oracles for the effectful parts of StartProcess: the TCP bind probe,
uuid generation, binary auto-detection, .env loading and the OS spawn. -/
structure StartEnv where
  listenOk : Nat → Bool
  freshId : String := "id"
  detectResult : Except String String := Except.error "no versioned binary found"
  loadEnvOk : Bool := true
  spawnResult : Except String Int
  hasVersionManager : Bool := true

/-- Outcome of one StartProcess call: the returned value, the state
afterwards, and whether a monitor goroutine was spawned. -/
structure StartOutcome where
  result : Except StartError ProcessInstance
  state : PMState
  monitorSpawned : Bool
  deriving Repr

/-- Mutation of one registry entry (ManagedProcess.AddInstance reached
through the name key). -/
def updateProc (procs : List (String × ManagedProcess)) (name : String)
    (f : ManagedProcess → ManagedProcess) : List (String × ManagedProcess) :=
  procs.map (fun kv => if kv.1 == name then (kv.1, f kv.2) else kv)

/-- process/manager.go StartProcess lines 235-248: when a version manager
is attached and the binary filename carries a version, record it as the
process's current version. -/
def recordDetectedVersion (st : PMState) (name binaryPath : String) (hasVM : Bool) :
    PMState :=
  if hasVM && (extractVersionFromFilename binaryPath != "") then
    { st with versions :=
        SetCurrentVersion st.versions name { tag := extractVersionFromFilename binaryPath } }
  else st

/-- process/manager.go StartProcess lines 207-291, entered after the port
was allocated and the cursor advanced: build the instance record, choose
the binary path (configured, joined under the working directory when
relative, else auto-detected), record the version extracted from the
filename via the version manager, load the .env file, spawn, and only on
a successful spawn append the instance and spawn the monitor. -/
def startAfterPortAlloc (st : PMState) (env : StartEnv) (name : String)
    (mp : ManagedProcess) (availablePort : Nat) : StartOutcome :=
  let inst0 : ProcessInstance :=
    { id := env.freshId, processName := name, status := ProcessStatus.starting,
      pid := 0, port := availablePort }
  let binaryPathE : Except String String :=
    if mp.config.binaryPath != "" then
      Except.ok (if isAbsPath mp.config.binaryPath then mp.config.binaryPath
                 else joinPath mp.config.workDir mp.config.binaryPath)
    else env.detectResult
  match binaryPathE with
  | Except.error _ => ⟨Except.error StartError.detectFailed, st, false⟩
  | Except.ok binaryPath =>
    let st1 := recordDetectedVersion st name binaryPath env.hasVersionManager
    if !env.loadEnvOk then ⟨Except.error StartError.envFailed, st1, false⟩
    else
      match env.spawnResult with
      | Except.error _ => ⟨Except.error StartError.spawnFailed, st1, false⟩
      | Except.ok pid =>
        let inst := { inst0 with pid := pid, status := ProcessStatus.running }
        let newProcs :=
          updateProc st1.processes name (fun q => { q with instances := q.instances ++ [inst] })
        ⟨Except.ok inst, { st1 with processes := newProcs }, true⟩

/-- process/manager.go StartProcess (lines 177-291): registry lookup,
max-instances gate, port probe from the cursor with 10 attempts, cursor
advance past the adopted port, then the post-allocation phase. -/
def StartProcess (st : PMState) (env : StartEnv) (name : String) : StartOutcome :=
  match List.lookup name st.processes with
  | none => ⟨Except.error StartError.notFound, st, false⟩
  | some mp =>
    if (mp.instances.filter (fun i => i.status == ProcessStatus.running)).length ≥
        mp.config.maxInstances then
      ⟨Except.error StartError.maxInstances, st, false⟩
    else
      match findAvailablePort env.listenOk st.nextPort 10 with
      | Except.error _ => ⟨Except.error StartError.portExhausted, st, false⟩
      | Except.ok availablePort =>
        startAfterPortAlloc { st with nextPort := availablePort + 1 } env name mp availablePort

/-- process/manager.go GetProcessRepository (lines 515-523): the
configured repository of the named process, or the empty string. -/
def GetProcessRepository (procs : List (String × ManagedProcess)) (processName : String) :
    String :=
  match List.lookup processName procs with
  | some p => p.config.repository
  | none => ""

/- ===== internal/update/manager.go (the repository-lock revision) ===== -/

/-- update/manager.go getBinaryPathForRepository: destination
binaries/<repoBasename>/<repoBasename>_<tag>.exe, where the basename is
the last component of the slash-normalised repository identifier. -/
def getBinaryPathForRepository (binariesDir repository version : String) : String :=
  let repoName := filepathBase (toSlash repository)
  joinPath (joinPath binariesDir repoName) (repoName ++ "_" ++ version ++ ".exe")

/-- update/manager.go download progress callback: invoked per chunk; when
the total is positive it reports 20 + downloaded/total * 50, otherwise it
reports nothing. -/
def progressCallback (downloaded total : Int) : Option Rat :=
  if 0 < total then some (20 + (downloaded : Rat) / (total : Rat) * 50) else none

/-- External calls the update pipeline makes, in order. -/
inductive UEvent
  | fetchVersion (repository tag : String)
  | download (dest : String)
  | startNew
  | stopGraceful (id : String) (timeoutSec : Nat)
  | setCurrent (processName tag : String)
  deriving DecidableEq, Repr

/-- Oracles for the update pipeline's external calls. -/
structure UpdateEnv where
  getVersion : String → String → Except String Version
  currentVersion : Option Version := none
  fileExists : String → Bool := fun _ => false
  downloadResult : Except String Unit := Except.ok ()
  startResult : Except String ProcessInstance
  snapshot : List ProcessInstance := []

/-- update/manager.go performUpdate already-on-target test: a current
version exists, its tag equals the target tag, and force is off. -/
def alreadyOnTarget (cur : Option Version) (v : Version) (force : Bool) : Bool :=
  match cur with
  | some c => c.tag == v.tag && !force
  | none => false

/-- Graceful-stop calls of the stopping_old stage: every snapshot
instance other than the newly started one whose status is running, with
the 30-second graceful timeout.  Stop failures are logged and do not
influence anything. -/
def stoppingOldEvents (snapshot : List ProcessInstance) (newId : String) : List UEvent :=
  (snapshot.filter (fun i => !(i.id == newId) && (i.status == ProcessStatus.running))).map
    (fun i => UEvent.stopGraceful i.id 30)

/-- Stages 3-5 of performUpdate: start the new instance (fail the update
when the start fails), gracefully stop the old running instances, record
the new current version, and complete. -/
def stageStartingNew (processName : String) (v : Version) (env : UpdateEnv) :
    UpdateStatus × List UEvent :=
  match env.startResult with
  | Except.error e =>
    ({ processName := processName, stage := "failed", progress := 75,
       error := "Failed to start new instance: " ++ e, completed := true },
     [UEvent.startNew])
  | Except.ok newInstance =>
    ({ processName := processName, stage := "completed", progress := 100,
       message := "Successfully updated to version " ++ v.tag, completed := true },
     UEvent.startNew :: (stoppingOldEvents env.snapshot newInstance.id ++
       [UEvent.setCurrent processName v.tag]))

/-- Stage 2 of performUpdate (downloading, under the repository lock):
compute the artifact destination, skip the download when the file is
already on disk, otherwise invoke the download and fail the update when
it fails. -/
def stageDownloading (binariesDir processName repository : String) (v : Version)
    (env : UpdateEnv) : UpdateStatus × List UEvent :=
  let binaryPath := getBinaryPathForRepository binariesDir repository v.tag
  if env.fileExists binaryPath then stageStartingNew processName v env
  else
    match env.downloadResult with
    | Except.error e =>
      ({ processName := processName, stage := "failed", progress := 20,
         error := "Failed to download binary: " ++ e, completed := true },
       [UEvent.download binaryPath])
    | Except.ok _ =>
      let (st, evs) := stageStartingNew processName v env
      (st, UEvent.download binaryPath :: evs)

/-- update/manager.go performUpdate (the repository-lock revision):
resolve the repository from the process manager (fail when empty), fetch
the target version (empty target means latest), return early when
already on target, then run the download/start/stop/record stages.  The
returned status is the final one published; the event list records the
external calls in order. -/
def performUpdate (procs : List (String × ManagedProcess)) (binariesDir : String)
    (processName targetVersion : String) (force : Bool) (env : UpdateEnv) :
    UpdateStatus × List UEvent :=
  let repository := GetProcessRepository procs processName
  if repository == "" then
    ({ processName := processName, stage := "failed", progress := 0,
       error := "Failed to get repository for process", completed := true }, [])
  else
    let tagQuery := if targetVersion == "" then "latest" else targetVersion
    match env.getVersion repository tagQuery with
    | Except.error e =>
      ({ processName := processName, stage := "failed", progress := 10,
         error := "Failed to fetch version: " ++ e, completed := true },
       [UEvent.fetchVersion repository tagQuery])
    | Except.ok v =>
      if alreadyOnTarget env.currentVersion v force then
        ({ processName := processName, stage := "completed", progress := 100,
           message := "Already on target version", completed := true },
         [UEvent.fetchVersion repository tagQuery])
      else
        let (st, evs) := stageDownloading binariesDir processName repository v env
        (st, UEvent.fetchVersion repository tagQuery :: evs)

/-- update/manager.go UpdateProcess result: the immediate return value,
the updates map afterwards, and whether a background performUpdate was
spawned. -/
structure UpdateCallResult where
  result : Except String Unit
  updates : List (String × UpdateStatus)
  spawned : Bool
  deriving Repr

/-- UpdateStatus installed when an update is accepted. -/
def initialUpdateStatus (processName : String) : UpdateStatus :=
  { processName := processName, stage := "initializing", progress := 0, completed := false }

/-- update/manager.go UpdateProcess (lines 380-402): reject when an
uncompleted UpdateStatus exists for the name leaving the map untouched,
otherwise install an initializing status and spawn the pipeline. -/
def UpdateProcessCall (updates : List (String × UpdateStatus)) (processName : String) :
    UpdateCallResult :=
  match List.lookup processName updates with
  | some status =>
    if !status.completed then
      ⟨Except.error ("update already in progress for " ++ processName), updates, false⟩
    else
      ⟨Except.ok (), storeSet updates processName (initialUpdateStatus processName), true⟩
  | none =>
    ⟨Except.ok (), storeSet updates processName (initialUpdateStatus processName), true⟩

/- ===== internal/loadbalancer/balancer.go ===== -/

/-- loadbalancer/balancer.go selectBackend (lines 225-263): primary takes
the pool's first element; round_robin bumps the lazily created per-route
counter (a uint64, hence the modulus) and indexes the pool by the new
value modulo the pool size; least_connections is the same code as
round_robin.  The counter cell is returned alongside the selection. -/
def selectBackend (strategy : String) (backends : List String) (counter : Option Nat) :
    Except String (String × Option Nat) :=
  match backends with
  | [] => Except.error "no healthy backends available"
  | b :: rest =>
    match strategy with
    | "primary" => Except.ok (b, counter)
    | "round_robin" =>
      let c := (counter.getD 0 + 1) % 2 ^ 64
      let idx := c % (b :: rest).length
      Except.ok ((b :: rest).getD idx b, some c)
    | "least_connections" =>
      let c := (counter.getD 0 + 1) % 2 ^ 64
      let idx := c % (b :: rest).length
      Except.ok ((b :: rest).getD idx b, some c)
    | _ => Except.error ("unknown strategy: " ++ strategy)

/- ===== internal/grpc/server.go: RestartProcess (hot restart) ===== -/

/-- Process-manager calls the hot-restart coordinator makes. -/
inductive REvent
  | stopForce (id : String)
  | stopGraceful (id : String) (timeoutSec : Nat)
  deriving DecidableEq, Repr

/-- Oracles for the hot restart: the outcome of the i-th StartProcess
call, the status snapshot observed at the i-th health-check retry, and
the final snapshot taken before retiring old instances.  GetProcessStatus
cannot fail here because the managed name exists and names are never
removed from the registry, so the polls always deliver a snapshot. -/
structure RestartEnv where
  startResults : Nat → Except String ProcessInstance
  polls : Nat → List ProcessInstance
  finalSnapshot : List ProcessInstance := []

/-- Provisioning loop of RestartProcess (server.go lines 193-205): run
the remaining StartProcess calls, accumulating the new instance ids; on
the first failure stop and report the error with the ids started so
far. -/
def provision (startResults : Nat → Except String ProcessInstance) :
    Nat → Nat → List String → List String × Option String
  | 0, _, acc => (acc, none)
  | n + 1, i, acc =>
    match startResults i with
    | Except.error e => (acc, some e)
    | Except.ok inst => provision startResults n (i + 1) (acc ++ [inst.id])

/-- Health of one new instance id in a snapshot (server.go lines
232-256): the id must be present, and every snapshot entry carrying the
id must have a positive pid and status running. -/
def instanceHealthy (snapshot : List ProcessInstance) (id : String) : Bool :=
  snapshot.any (fun i => i.id == id) &&
    snapshot.all (fun i => !(i.id == id) || (decide (0 < i.pid) && (i.status == ProcessStatus.running)))

/-- All new instances simultaneously healthy in one snapshot. -/
def allNewHealthy (snapshot : List ProcessInstance) (newIds : List String) : Bool :=
  newIds.all (fun id => instanceHealthy snapshot id)

/-- Health gate (server.go lines 208-279): up to maxRetries polls, 500 ms
apart; the gate passes as soon as one snapshot shows every new instance
healthy (the extra minimum-wall-clock sleep does not change the
outcome). -/
def healthGatePass (polls : Nat → List ProcessInstance) (newIds : List String)
    (maxRetries : Nat) : Bool :=
  (List.range maxRetries).any (fun r => allNewHealthy (polls r) newIds)

/-- Retire phase (server.go lines 292-315): gracefully stop, with a
3-second timeout, every old instance that is not one of the new ones,
restricted to the requested instance when a single-instance restart was
asked for.  Stop failures are logged and do not fail the restart. -/
def retireEvents (oldInstances : List ProcessInstance) (instanceId : String)
    (newIds : List String) (finalSnapshot : List ProcessInstance) : List REvent :=
  oldInstances.filterMap (fun o =>
    if (finalSnapshot.any (fun i => i.id == o.id)) && newIds.contains o.id then none
    else if instanceId != "" && !(o.id == instanceId) then none
    else some (REvent.stopGraceful o.id 3))

/-- grpc/server.go RestartProcess (lines 167-321): snapshot the old
instances (fail when none), provision k new instances (k = 1 for a
single-instance restart, else the old count), roll back every started id
on a provisioning failure, run the 10-retry health gate and roll back
every new id when it never passes, then retire the old instances. -/
def RestartProcess (oldInstances : List ProcessInstance) (instanceId : String)
    (env : RestartEnv) : Except String Unit × List REvent :=
  if oldInstances.isEmpty then (Except.error "no instances found", [])
  else
    let numInstances := if instanceId != "" then 1 else oldInstances.length
    match provision env.startResults numInstances 0 [] with
    | (newIds, some e) =>
      (Except.error ("failed to start new instance: " ++ e), newIds.map REvent.stopForce)
    | (newIds, none) =>
      if healthGatePass env.polls newIds 10 then
        (Except.ok (), retireEvents oldInstances instanceId newIds env.finalSnapshot)
      else
        (Except.error "new instances failed to become healthy after 10 retries",
         newIds.map REvent.stopForce)

/- ===== repository-lock concurrency model (update/manager.go stage 2) ===== -/

/-- Where a pipeline thread stands inside the downloading stage:
before repoLock.Lock(); holding the lock at the os.Stat check; holding
the lock inside DownloadVersion; done (the lock released by either the
skip branch or the post-download unlock). -/
inductive DlPhase
  | wantLock
  | holding
  | downloading
  | done
  deriving DecidableEq, Repr

/-- Static assignment of a repository to each pipeline thread (the
repository resolved for the process the thread is updating). -/
structure DlSys where
  repoOf : Nat → String

/-- Shared state of the downloading stage across threads: the repoLocks
map (holder of each repository's mutex), each thread's phase, whether
the artifact file of each repository is on disk, how many downloads of
each repository's artifact have been started, and how many have
completed successfully. -/
structure DlState where
  lock : String → Option Nat
  phase : Nat → DlPhase
  fileExists : String → Bool
  downloads : String → Nat
  successes : String → Nat

/-- Interleaving steps of the downloading stage, one per control point of
update/manager.go performUpdate lines 469-503: acquire the repository
mutex (only when free), skip the download because the file already
exists (releasing the lock), begin DownloadVersion (keeping the lock),
finish DownloadVersion successfully (writing the file, releasing the
lock), or have DownloadVersion fail before the file is created (the
lock is released either way — the unlock precedes the error check — and
no file appears on disk). -/
inductive DlStep (sys : DlSys) : DlState → DlState → Prop
  | acquire (t : Nat) {s : DlState} :
      s.phase t = DlPhase.wantLock →
      s.lock (sys.repoOf t) = none →
      DlStep sys s
        { s with
          lock := fun r => if r = sys.repoOf t then some t else s.lock r,
          phase := fun u => if u = t then DlPhase.holding else s.phase u }
  | skip (t : Nat) {s : DlState} :
      s.phase t = DlPhase.holding →
      s.fileExists (sys.repoOf t) = true →
      DlStep sys s
        { s with
          lock := fun r => if r = sys.repoOf t then none else s.lock r,
          phase := fun u => if u = t then DlPhase.done else s.phase u }
  | beginDownload (t : Nat) {s : DlState} :
      s.phase t = DlPhase.holding →
      s.fileExists (sys.repoOf t) = false →
      DlStep sys s
        { s with
          phase := fun u => if u = t then DlPhase.downloading else s.phase u,
          downloads := fun r => if r = sys.repoOf t then s.downloads r + 1 else s.downloads r }
  | finishDownload (t : Nat) {s : DlState} :
      s.phase t = DlPhase.downloading →
      DlStep sys s
        { s with
          lock := fun r => if r = sys.repoOf t then none else s.lock r,
          phase := fun u => if u = t then DlPhase.done else s.phase u,
          fileExists := fun r => if r = sys.repoOf t then true else s.fileExists r,
          successes := fun r => if r = sys.repoOf t then s.successes r + 1 else s.successes r }
  | failDownload (t : Nat) {s : DlState} :
      s.phase t = DlPhase.downloading →
      DlStep sys s
        { s with
          lock := fun r => if r = sys.repoOf t then none else s.lock r,
          phase := fun u => if u = t then DlPhase.done else s.phase u }

/-- Initial states: no thread is inside the stage yet, the repoLocks map
holds no lock, and no download has been started.  Artifacts may or may
not already be on disk. -/
def DlInit (s : DlState) : Prop :=
  (∀ t, s.phase t = DlPhase.wantLock ∨ s.phase t = DlPhase.done) ∧
  (∀ r, s.lock r = none) ∧
  (∀ r, s.downloads r = 0) ∧
  (∀ r, s.successes r = 0)

/-- Reachability under interleaved downloading-stage steps. -/
inductive DlReachable (sys : DlSys) : DlState → DlState → Prop
  | refl (s : DlState) : DlReachable sys s s
  | tail {s t u : DlState} : DlReachable sys s t → DlStep sys t u → DlReachable sys s u

/-- Inductive invariant of the downloading stage: a thread at the check
or inside the download holds its repository's mutex; a downloading
thread's artifact is not yet on disk; while the artifact is not on disk
no download of it has succeeded; and at most one download of each
artifact ever succeeds. -/
def DlInv (sys : DlSys) (s : DlState) : Prop :=
  (∀ t, s.phase t = DlPhase.holding ∨ s.phase t = DlPhase.downloading →
    s.lock (sys.repoOf t) = some t) ∧
  (∀ t, s.phase t = DlPhase.downloading → s.fileExists (sys.repoOf t) = false) ∧
  (∀ r, s.fileExists r = false → s.successes r = 0) ∧
  (∀ r, s.successes r ≤ 1)

/- ===== concrete scenarios ===== -/

/-- Two pipeline threads, both updating processes that share the
repository owner/R. -/
def c1sys : DlSys := { repoOf := fun _ => "owner/R" }

/-- Initial downloading-stage state: both threads before the lock, no
lock held, artifact absent, no downloads. -/
def c1s0 : DlState :=
  { lock := fun _ => none, phase := fun _ => DlPhase.wantLock,
    fileExists := fun _ => false, downloads := fun _ => 0, successes := fun _ => 0 }

/-- State after thread 0 acquires the repository lock. -/
def c1s1 : DlState :=
  { c1s0 with
    lock := fun r => if r = c1sys.repoOf 0 then some 0 else c1s0.lock r,
    phase := fun u => if u = 0 then DlPhase.holding else c1s0.phase u }

/-- State after thread 0 begins the download. -/
def c1s2 : DlState :=
  { c1s1 with
    phase := fun u => if u = 0 then DlPhase.downloading else c1s1.phase u,
    downloads := fun r => if r = c1sys.repoOf 0 then c1s1.downloads r + 1 else c1s1.downloads r }

/-- State after thread 0's DownloadVersion fails: the lock is released
and no file was written. -/
def c1s3 : DlState :=
  { c1s2 with
    lock := fun r => if r = c1sys.repoOf 0 then none else c1s2.lock r,
    phase := fun u => if u = 0 then DlPhase.done else c1s2.phase u }

/-- State after thread 1 acquires the freed repository lock. -/
def c1s4 : DlState :=
  { c1s3 with
    lock := fun r => if r = c1sys.repoOf 1 then some 1 else c1s3.lock r,
    phase := fun u => if u = 1 then DlPhase.holding else c1s3.phase u }

/-- State after thread 1, finding no file on disk, begins a second
download of the same artifact. -/
def c1s5 : DlState :=
  { c1s4 with
    phase := fun u => if u = 1 then DlPhase.downloading else c1s4.phase u,
    downloads := fun r => if r = c1sys.repoOf 1 then c1s4.downloads r + 1 else c1s4.downloads r }

/-- Update environment where the artifact is already on disk. -/
def c2env : UpdateEnv :=
  { getVersion := fun _ _ => Except.ok { tag := "v1.2.3" },
    fileExists := fun _ => true,
    startResult := Except.ok { id := "n1", status := ProcessStatus.running } }

/-- Registry entry whose configured repository is empty. -/
def c3procs : List (String × ManagedProcess) :=
  [("svc", { config := { name := "svc", repository := "" } })]

/-- Registry entry with repository owner/R. -/
def c3procsR : List (String × ManagedProcess) :=
  [("svc", { config := { name := "svc", repository := "owner/R" } })]

/-- Update environment for the repository-resolution scenario. -/
def c3env : UpdateEnv :=
  { getVersion := fun _ _ => Except.ok { tag := "v2.0.0" },
    startResult := Except.error "spawn failed" }

/-- Registry for the stopping_old scenarios. -/
def c4procs : List (String × ManagedProcess) :=
  [("A", { config := { name := "A", repository := "owner/R" } })]

/-- An old instance that is in the snapshot but not running. -/
def c4oldStarting : ProcessInstance :=
  { id := "old1", processName := "A", status := ProcessStatus.starting, pid := 41, port := 5001 }

/-- An old instance that is in the snapshot and running. -/
def c4oldRunning : ProcessInstance :=
  { id := "old2", processName := "A", status := ProcessStatus.running, pid := 43, port := 5003 }

/-- Update environment whose stopping_old snapshot holds one non-running
old instance besides the new one. -/
def c4env : UpdateEnv :=
  { getVersion := fun _ _ => Except.ok { tag := "v1.2.3" },
    fileExists := fun _ => false,
    startResult := Except.ok
      { id := "new1", processName := "A", status := ProcessStatus.running, pid := 42, port := 5002 },
    snapshot := [c4oldStarting] }

/-- Update environment whose stopping_old snapshot holds one running old
instance besides the new one. -/
def c4envRunning : UpdateEnv :=
  { getVersion := fun _ _ => Except.ok { tag := "v1.2.3" },
    fileExists := fun _ => false,
    startResult := Except.ok
      { id := "new1", processName := "A", status := ProcessStatus.running, pid := 42, port := 5002 },
    snapshot := [c4oldRunning] }

/-- One running old instance for the hot-restart scenario. -/
def c5old : List ProcessInstance :=
  [{ id := "old0", processName := "svc", status := ProcessStatus.running, pid := 10, port := 5001 }]

/-- Hot-restart environment: provisioning succeeds with id new0, but
every health poll returns an empty snapshot, so the gate times out. -/
def c5env : RestartEnv :=
  { startResults := fun _ => Except.ok
      { id := "new0", processName := "svc", status := ProcessStatus.starting, pid := 0, port := 5002 },
    polls := fun _ => [] }

/-- Registry for the port-allocation scenario. -/
def c7st : PMState :=
  { processes := [("svc", { config := { name := "svc", maxInstances := 2 } })],
    nextPort := 5001, versions := [] }

/-- Start environment where ports 5001 and 5002 are taken and 5003 binds
(port collision recovery scenario). -/
def c7env : StartEnv :=
  { listenOk := fun p => decide (5003 ≤ p), spawnResult := Except.ok 77 }

/-- An uncompleted update status for svc. -/
def c8inProgress : UpdateStatus :=
  { processName := "svc", stage := "downloading", progress := 30, completed := false }

/-- A completed update status for svc. -/
def c8done : UpdateStatus :=
  { processName := "svc", stage := "completed", progress := 100, completed := true }

/-- Updates map holding an in-flight update for svc. -/
def c8updates : List (String × UpdateStatus) := [("svc", c8inProgress)]

/-- Updates map holding a completed update for svc. -/
def c8updatesDone : List (String × UpdateStatus) := [("svc", c8done)]

/-- Registry for the failed-spawn scenario: a configured relative binary
path carrying a version in its filename. -/
def c10st : PMState :=
  { processes :=
      [("A", { config := { name := "A", binaryPath := "db_service_v1.2.3.exe", workDir := "w" } })],
    nextPort := 5001, versions := [] }

/-- Start environment whose spawn fails after everything else succeeded. -/
def c10env : StartEnv :=
  { listenOk := fun _ => true, freshId := "i1",
    spawnResult := Except.error "exec format error" }

/- ===== helper lemmas ===== -/

/-- Looking up a key immediately after assigning it yields the assigned
value. -/
theorem lookup_storeSet {α : Type} (store : List (String × α)) (key : String) (v : α) :
    List.lookup key (storeSet store key v) = some v := by
  induction store with
  | nil => simp [storeSet, List.lookup]
  | cons kv rest ih =>
    obtain ⟨k, w⟩ := kv
    unfold storeSet
    by_cases h : k = key
    · subst h
      simp [List.lookup]
    · have hb : (k == key) = false := by
        exact beq_eq_false_iff_ne.mpr h
      have hb2 : (key == k) = false := by
        exact beq_eq_false_iff_ne.mpr (Ne.symm h)
      rw [hb]
      simp only [Bool.false_eq_true, if_false, List.lookup, hb2]
      exact ih

/- ===== Claim C9 ===== -/

/-- Claim C9: for every backend pool and per-route counter state, backend
selection under strategy least_connections returns exactly the same
result as selection under strategy round_robin: the least_connections
branch of selectBackend is the round_robin code. -/
theorem least_connections_eq_round_robin (backends : List String) (counter : Option Nat) :
    selectBackend "least_connections" backends counter =
      selectBackend "round_robin" backends counter := by
  cases backends <;> rfl

/- ===== Claim C6 ===== -/

/-- Claim C6 counterexample: after setCurrent v1; setCurrent v2;
setCurrent v1 for process svc, the current version is v1 while the first
history entry is v2 — SetCurrentVersion does not move an
already-present tag to the head, so current is present yet differs from
the first history entry. -/
theorem setCurrent_head_counterexample :
    (loadVersionInfo cexStore "svc").currentVersion = some cexV1 ∧
    (loadVersionInfo cexStore "svc").history.head? = some cexV2 ∧
    ¬ (loadVersionInfo cexStore "svc").history.head? = some cexV1 := by
  decide

/-- Claim C6 (amended): setCurrent(name, version) makes current the first
history entry whenever version's tag is not already somewhere in the
history; when the tag is already present the history is left unchanged,
so current may then differ from the first entry. -/
theorem setCurrent_fresh_tag_head (store : List (String × VersionInfo))
    (name : String) (v : Version)
    (hfresh : (loadVersionInfo store name).history.all (fun w => !(w.tag == v.tag)) = true) :
    (loadVersionInfo (SetCurrentVersion store name v) name).currentVersion = some v ∧
    (loadVersionInfo (SetCurrentVersion store name v) name).history.head? = some v := by
  have hload : loadVersionInfo (SetCurrentVersion store name v) name =
      setCurrentVersionInfo (loadVersionInfo store name) v := by
    unfold loadVersionInfo SetCurrentVersion
    rw [lookup_storeSet]
    rfl
  rw [hload]
  have hany : (loadVersionInfo store name).history.any (fun w => w.tag == v.tag) = false := by
    rw [List.any_eq_false]
    intro w hw
    have := List.all_eq_true.mp hfresh w hw
    simpa using this
  unfold setCurrentVersionInfo
  simp [hany, List.take_succ_cons]

/-- Claim C6 (amended) witness: setting v1.0.0 on the empty store makes
it both current and the history head. -/
theorem setCurrent_fresh_tag_head_witness :
    (loadVersionInfo [] "svc").history.all (fun w => !(w.tag == cexV1.tag)) = true ∧
    (loadVersionInfo (SetCurrentVersion [] "svc" cexV1) "svc").currentVersion = some cexV1 ∧
    (loadVersionInfo (SetCurrentVersion [] "svc" cexV1) "svc").history.head? = some cexV1 :=
  ⟨by decide,
   (setCurrent_fresh_tag_head [] "svc" cexV1 (by decide)).1,
   (setCurrent_fresh_tag_head [] "svc" cexV1 (by decide)).2⟩

/- ===== Claim C8 ===== -/

/-- Claim C8: while an UpdateStatus with completed=false exists for a
name, a new update request for it is rejected immediately with an error
and the updates map — hence the in-progress status — is unchanged and no
pipeline is spawned; once completed=true the request is accepted, a
fresh initializing status is installed and the pipeline is spawned. -/
theorem update_in_progress_rejection (updates : List (String × UpdateStatus))
    (name : String) (st : UpdateStatus)
    (hlook : List.lookup name updates = some st) :
    (st.completed = false →
      (UpdateProcessCall updates name).result =
        Except.error ("update already in progress for " ++ name) ∧
      (UpdateProcessCall updates name).updates = updates ∧
      (UpdateProcessCall updates name).spawned = false) ∧
    (st.completed = true →
      (UpdateProcessCall updates name).result = Except.ok () ∧
      (UpdateProcessCall updates name).spawned = true ∧
      List.lookup name (UpdateProcessCall updates name).updates =
        some (initialUpdateStatus name)) := by
  unfold UpdateProcessCall
  rw [hlook]
  constructor
  · intro hc
    simp [hc]
  · intro hc
    simp [hc, lookup_storeSet]

/-- Claim C8 witness: the in-flight map rejects and stays unchanged; the
completed map accepts. -/
theorem update_in_progress_rejection_witness :
    c8inProgress.completed = false ∧
    (UpdateProcessCall c8updates "svc").updates = c8updates ∧
    (UpdateProcessCall c8updatesDone "svc").result = Except.ok () :=
  ⟨rfl,
   ((update_in_progress_rejection c8updates "svc" c8inProgress rfl).1 rfl).2.1,
   ((update_in_progress_rejection c8updatesDone "svc" c8done rfl).2 rfl).1⟩

/- ===== port allocation lemmas, Claims C7 and C10 ===== -/

/-- A successful probe returns the least bindable port in the window. -/
theorem findAvailablePortAux_some (listenOk : Nat → Bool) :
    ∀ n startPort p, findAvailablePortAux listenOk startPort n = some p →
      listenOk p = true ∧ startPort ≤ p ∧ p < startPort + n ∧
      ∀ q, startPort ≤ q → q < p → listenOk q = false := by
  intro n
  induction n with
  | zero =>
    intro s p h
    simp [findAvailablePortAux] at h
  | succ n ih =>
    intro s p h
    unfold findAvailablePortAux at h
    by_cases hl : listenOk s = true
    · rw [if_pos hl] at h
      obtain rfl : s = p := by injection h
      refine ⟨hl, Nat.le_refl _, by omega, ?_⟩
      intro q hq1 hq2
      omega
    · rw [if_neg hl] at h
      obtain ⟨h1, h2, h3, h4⟩ := ih (s + 1) p h
      refine ⟨h1, by omega, by omega, ?_⟩
      intro q hq1 hq2
      by_cases hqs : q = s
      · subst hqs
        exact Bool.eq_false_iff.mpr hl
      · exact h4 q (by omega) hq2

/-- When every port in the window fails to bind, the probe loop reports
nothing. -/
theorem findAvailablePortAux_none (listenOk : Nat → Bool) :
    ∀ n startPort, (∀ i, i < n → listenOk (startPort + i) = false) →
      findAvailablePortAux listenOk startPort n = none := by
  intro n
  induction n with
  | zero =>
    intro s _
    rfl
  | succ n ih =>
    intro s h
    unfold findAvailablePortAux
    have h0 : listenOk s = false := by
      have := h 0 (by omega)
      simpa using this
    rw [if_neg (by simp [h0])]
    apply ih
    intro i hi
    have := h (i + 1) (by omega)
    have harith : s + (i + 1) = s + 1 + i := by omega
    rw [harith] at this
    exact this

/-- Recording a detected version does not move the port cursor. -/
theorem recordDetectedVersion_nextPort (st : PMState) (name binaryPath : String)
    (hasVM : Bool) :
    (recordDetectedVersion st name binaryPath hasVM).nextPort = st.nextPort := by
  unfold recordDetectedVersion
  split <;> rfl

/-- Recording a detected version does not touch the registry. -/
theorem recordDetectedVersion_processes (st : PMState) (name binaryPath : String)
    (hasVM : Bool) :
    (recordDetectedVersion st name binaryPath hasVM).processes = st.processes := by
  unfold recordDetectedVersion
  split <;> rfl

/-- The state after the post-allocation phase keeps the advanced port
cursor untouched, whatever else happens. -/
theorem startAfterPortAlloc_nextPort (st : PMState) (env : StartEnv) (name : String)
    (mp : ManagedProcess) (port : Nat) :
    (startAfterPortAlloc st env name mp port).state.nextPort = st.nextPort := by
  unfold startAfterPortAlloc
  repeat' split
  all_goals try simp [recordDetectedVersion_nextPort]
  all_goals cases env.detectResult <;> simp [recordDetectedVersion_nextPort]

/-- Claim C7: the port cursor starts at 5001; a successful start adopts
the first of the 10 consecutive candidate ports from the cursor on which
the TCP listen probe succeeds and advances the cursor past the adopted
port; and when all 10 candidates fail to bind, the start fails with the
distinguishable port-exhaustion error leaving the whole state — in
particular the instance registry — unchanged, with no monitor spawned. -/
theorem start_port_allocation (st : PMState) (env : StartEnv) (name : String)
    (mp : ManagedProcess)
    (hname : List.lookup name st.processes = some mp)
    (hmax : (mp.instances.filter (fun i => i.status == ProcessStatus.running)).length <
      mp.config.maxInstances) :
    (NewManager []).nextPort = 5001 ∧
    (∀ p, findAvailablePort env.listenOk st.nextPort 10 = Except.ok p →
      env.listenOk p = true ∧ st.nextPort ≤ p ∧ p < st.nextPort + 10 ∧
      (∀ q, st.nextPort ≤ q → q < p → env.listenOk q = false) ∧
      (StartProcess st env name).state.nextPort = p + 1) ∧
    ((∀ i, i < 10 → env.listenOk (st.nextPort + i) = false) →
      (StartProcess st env name).result = Except.error StartError.portExhausted ∧
      (StartProcess st env name).state = st ∧
      (StartProcess st env name).monitorSpawned = false) := by
  refine ⟨rfl, ?_, ?_⟩
  · intro p hp
    have haux : findAvailablePortAux env.listenOk st.nextPort 10 = some p := by
      unfold findAvailablePort at hp
      cases h : findAvailablePortAux env.listenOk st.nextPort 10 with
      | none =>
        rw [h] at hp
        simp at hp
      | some q =>
        rw [h] at hp
        simp at hp
        rw [hp]
    obtain ⟨h1, h2, h3, h4⟩ := findAvailablePortAux_some env.listenOk 10 st.nextPort p haux
    refine ⟨h1, h2, h3, h4, ?_⟩
    simp only [StartProcess, hname]
    rw [if_neg (not_le.mpr hmax), hp]
    exact startAfterPortAlloc_nextPort _ env name mp p
  · intro hall
    have hnone := findAvailablePortAux_none env.listenOk 10 st.nextPort hall
    have hfp : findAvailablePort env.listenOk st.nextPort 10 =
        Except.error ("no available port found after " ++ toString 10 ++
          " attempts starting from " ++ toString st.nextPort) := by
      unfold findAvailablePort
      rw [hnone]
    simp only [StartProcess, hname]
    rw [if_neg (not_le.mpr hmax), hfp]
    exact ⟨rfl, rfl, rfl⟩

/-- Claim C7 witness: with external listeners occupying 5001 and 5002,
start adopts port 5003 and the cursor advances to 5004. -/
theorem start_port_allocation_witness :
    c7env.listenOk 5003 = true ∧
    (StartProcess c7st c7env "svc").state.nextPort = 5003 + 1 :=
  ⟨((start_port_allocation c7st c7env "svc"
      { config := { name := "svc", maxInstances := 2 } } rfl (by decide)).2.1 5003 rfl).1,
   ((start_port_allocation c7st c7env "svc"
      { config := { name := "svc", maxInstances := 2 } } rfl (by decide)).2.1 5003 rfl).2.2.2.2⟩

/-- Claim C10: when the spawn fails after the port was allocated and the
binary path resolved, StartProcess returns the spawn error, the instance
registry is unchanged and no monitor is spawned, while the version store
has already been updated from the binary filename exactly when a version
manager is attached and the filename carries a version. -/
theorem failed_spawn_frame_effect (st : PMState) (env : StartEnv) (name : String)
    (mp : ManagedProcess) (p : Nat) (binaryPath e : String)
    (hname : List.lookup name st.processes = some mp)
    (hmax : (mp.instances.filter (fun i => i.status == ProcessStatus.running)).length <
      mp.config.maxInstances)
    (hport : findAvailablePort env.listenOk st.nextPort 10 = Except.ok p)
    (hbin : (if mp.config.binaryPath != "" then
        Except.ok (if isAbsPath mp.config.binaryPath then mp.config.binaryPath
                   else joinPath mp.config.workDir mp.config.binaryPath)
      else env.detectResult) = Except.ok binaryPath)
    (henv : env.loadEnvOk = true)
    (hspawn : env.spawnResult = Except.error e) :
    (StartProcess st env name).result = Except.error StartError.spawnFailed ∧
    (StartProcess st env name).state.processes = st.processes ∧
    (StartProcess st env name).monitorSpawned = false ∧
    (StartProcess st env name).state.versions =
      (if env.hasVersionManager && (extractVersionFromFilename binaryPath != "") then
        SetCurrentVersion st.versions name { tag := extractVersionFromFilename binaryPath }
      else st.versions) := by
  simp only [StartProcess, hname]
  rw [if_neg (not_le.mpr hmax), hport]
  simp only [startAfterPortAlloc, hbin, henv, hspawn, Bool.not_true, Bool.false_eq_true,
    if_false]
  by_cases hc : (env.hasVersionManager && (extractVersionFromFilename binaryPath != "")) = true
  · simp [recordDetectedVersion, hc]
  · simp [recordDetectedVersion, hc]

/- ===== update pipeline lemmas, Claims C2, C3, C4 ===== -/

/-- The stages after downloading never emit a download call. -/
theorem stageStartingNew_no_download (processName : String) (v : Version)
    (env : UpdateEnv) (d : String) :
    UEvent.download d ∉ (stageStartingNew processName v env).2 := by
  unfold stageStartingNew
  cases h : env.startResult with
  | error e => simp
  | ok newInstance => simp [stoppingOldEvents]

/-- Every snapshot instance other than the new one whose status is
running gets a 30-second graceful stop in the stopping_old stage. -/
theorem mem_stoppingOldEvents (snapshot : List ProcessInstance) (newId : String)
    (i : ProcessInstance) (hi : i ∈ snapshot) (hne : ¬ i.id = newId)
    (hr : i.status = ProcessStatus.running) :
    UEvent.stopGraceful i.id 30 ∈ stoppingOldEvents snapshot newId := by
  unfold stoppingOldEvents
  exact List.mem_map_of_mem _ (List.mem_filter.mpr ⟨hi, by simp [hne, hr]⟩)

/-- When the new instance starts, the pipeline completes and the
stopping_old stage stops every running old instance. -/
theorem stageStartingNew_completed_mem (processName : String) (v : Version)
    (env : UpdateEnv) (newInst : ProcessInstance)
    (hstart : env.startResult = Except.ok newInst) :
    (stageStartingNew processName v env).1.stage = "completed" ∧
    ∀ i ∈ env.snapshot, ¬ i.id = newInst.id → i.status = ProcessStatus.running →
      UEvent.stopGraceful i.id 30 ∈ (stageStartingNew processName v env).2 := by
  unfold stageStartingNew
  rw [hstart]
  refine ⟨rfl, ?_⟩
  intro i hi hne hr
  simp only []
  exact List.mem_cons_of_mem _
    (List.mem_append_left _ (mem_stoppingOldEvents env.snapshot newInst.id i hi hne hr))

/-- The downloading stage propagates completion and the stopping_old
stops whenever the download is skipped or succeeds. -/
theorem stageDownloading_completed_mem (binariesDir processName repository : String)
    (v : Version) (env : UpdateEnv) (newInst : ProcessInstance)
    (hdl : env.fileExists (getBinaryPathForRepository binariesDir repository v.tag) = true ∨
      env.downloadResult = Except.ok ())
    (hstart : env.startResult = Except.ok newInst) :
    (stageDownloading binariesDir processName repository v env).1.stage = "completed" ∧
    ∀ i ∈ env.snapshot, ¬ i.id = newInst.id → i.status = ProcessStatus.running →
      UEvent.stopGraceful i.id 30 ∈
        (stageDownloading binariesDir processName repository v env).2 := by
  unfold stageDownloading
  by_cases hfe : env.fileExists (getBinaryPathForRepository binariesDir repository v.tag) = true
  · simp only [hfe, if_true]
    exact stageStartingNew_completed_mem processName v env newInst hstart
  · have hfe' : env.fileExists (getBinaryPathForRepository binariesDir repository v.tag) = false :=
      Bool.eq_false_iff.mpr hfe
    rcases hdl with hex | hok
    · exact absurd hex hfe
    · simp only [hfe', Bool.false_eq_true, if_false, hok]
      refine ⟨(stageStartingNew_completed_mem processName v env newInst hstart).1, ?_⟩
      intro i hi hne hr
      exact List.mem_cons_of_mem _
        ((stageStartingNew_completed_mem processName v env newInst hstart).2 i hi hne hr)

/-- Claim C2: the artifact destination is
binaries/<repoBasename>/<repoBasename>_<tag>.exe; when a file already
exists at that destination the downloading stage invokes no download at
all; otherwise it invokes the download of exactly that destination; and
every progress report of the download callback lies in the 20-70
range. -/
theorem downloading_stage_path_skip_progress (binariesDir processName repository : String)
    (v : Version) (env : UpdateEnv) :
    getBinaryPathForRepository binariesDir repository v.tag =
      binariesDir ++ "/" ++ filepathBase (toSlash repository) ++ "/" ++
        (filepathBase (toSlash repository) ++ "_" ++ v.tag ++ ".exe") ∧
    (env.fileExists (getBinaryPathForRepository binariesDir repository v.tag) = true →
      ∀ d, UEvent.download d ∉ (stageDownloading binariesDir processName repository v env).2) ∧
    (env.fileExists (getBinaryPathForRepository binariesDir repository v.tag) = false →
      UEvent.download (getBinaryPathForRepository binariesDir repository v.tag) ∈
        (stageDownloading binariesDir processName repository v env).2) ∧
    (∀ downloaded total : Int, 0 ≤ downloaded → downloaded ≤ total →
      ∀ pr, progressCallback downloaded total = some pr → 20 ≤ pr ∧ pr ≤ 70) := by
  refine ⟨rfl, ?_, ?_, ?_⟩
  · intro hex d
    simp only [stageDownloading, hex, if_true]
    exact stageStartingNew_no_download processName v env d
  · intro hex
    simp only [stageDownloading, hex, Bool.false_eq_true, if_false]
    cases h : env.downloadResult with
    | error e => simp [h]
    | ok u => simp [h]
  · intro downloaded total hd hdt pr hpr
    unfold progressCallback at hpr
    by_cases ht : (0 : Int) < total
    · rw [if_pos ht] at hpr
      have hpr' : pr = 20 + (downloaded : Rat) / (total : Rat) * 50 := by
        injection hpr with h
        exact h.symm
      have htq : (0 : Rat) < (total : Rat) := by exact_mod_cast ht
      have hdq : (0 : Rat) ≤ (downloaded : Rat) := by exact_mod_cast hd
      have hdtq : (downloaded : Rat) ≤ (total : Rat) := by exact_mod_cast hdt
      have hx0 : (0 : Rat) ≤ (downloaded : Rat) / (total : Rat) := div_nonneg hdq htq.le
      have hx1 : (downloaded : Rat) / (total : Rat) ≤ 1 := (div_le_one htq).mpr hdtq
      constructor
      · rw [hpr']
        nlinarith
      · rw [hpr']
        nlinarith
    · rw [if_neg ht] at hpr
      cases hpr

/-- Claim C2 witness: for repository owner/R and tag v1.2.3 the
destination is binaries/R/R_v1.2.3.exe; with the file on disk the stage
downloads nothing; a half-way progress report is 45. -/
theorem downloading_stage_path_skip_progress_witness :
    getBinaryPathForRepository "binaries" "owner/R" "v1.2.3" = "binaries/R/R_v1.2.3.exe" ∧
    UEvent.download "binaries/R/R_v1.2.3.exe" ∉
      (stageDownloading "binaries" "A" "owner/R" { tag := "v1.2.3" } c2env).2 ∧
    (20 ≤ (45 : Rat) ∧ (45 : Rat) ≤ 70) :=
  ⟨by decide,
   (downloading_stage_path_skip_progress "binaries" "A" "owner/R" { tag := "v1.2.3" }
      c2env).2.1 rfl "binaries/R/R_v1.2.3.exe",
   (downloading_stage_path_skip_progress "binaries" "A" "owner/R" { tag := "v1.2.3" }
      c2env).2.2.2 5 10 (by decide) (by decide) 45 (by norm_num [progressCallback])⟩

/-- Claim C3: the update pipeline resolves the process's repository from
the process manager before any version fetch — when the repository is
empty the update fails with no external call at all, and otherwise the
very first external call is the version fetch against exactly the
resolved repository. -/
theorem update_resolves_repository_first (procs : List (String × ManagedProcess))
    (binariesDir processName targetVersion : String) (force : Bool) (env : UpdateEnv) :
    (GetProcessRepository procs processName = "" →
      (performUpdate procs binariesDir processName targetVersion force env).1.stage = "failed" ∧
      (performUpdate procs binariesDir processName targetVersion force env).1.completed = true ∧
      (performUpdate procs binariesDir processName targetVersion force env).2 = []) ∧
    (GetProcessRepository procs processName ≠ "" →
      (performUpdate procs binariesDir processName targetVersion force env).2.head? =
        some (UEvent.fetchVersion (GetProcessRepository procs processName)
          (if targetVersion == "" then "latest" else targetVersion))) := by
  constructor
  · intro hr
    simp [performUpdate, hr]
  · intro hr
    have hb : (GetProcessRepository procs processName == "") = false :=
      beq_eq_false_iff_ne.mpr hr
    simp only [performUpdate, hb, Bool.false_eq_true, if_false]
    cases h : env.getVersion (GetProcessRepository procs processName)
        (if targetVersion == "" then "latest" else targetVersion) with
    | error e => simp
    | ok v =>
      by_cases ha : alreadyOnTarget env.currentVersion v force = true
      · simp [ha]
      · have ha' : alreadyOnTarget env.currentVersion v force = false :=
          Bool.eq_false_iff.mpr ha
        simp [ha']

/-- Claim C3 witness: an empty repository makes the update fail with no
calls; with repository owner/R the first call is the latest-version
fetch against owner/R. -/
theorem update_resolves_repository_first_witness :
    GetProcessRepository c3procs "svc" = "" ∧
    (performUpdate c3procs "binaries" "svc" "" false c3env).2 = [] ∧
    (performUpdate c3procsR "binaries" "svc" "" false c3env).2.head? =
      some (UEvent.fetchVersion "owner/R" "latest") :=
  ⟨rfl,
   ((update_resolves_repository_first c3procs "binaries" "svc" "" false c3env).1 rfl).2.2,
   (update_resolves_repository_first c3procsR "binaries" "svc" "" false c3env).2 (by decide)⟩

/-- Claim C4 counterexample: a completed update whose stopping_old
snapshot held the instance old1 (status starting, distinct from the new
instance new1) issues no graceful stop for old1 — the stage only stops
snapshot instances whose status is running, not every instance other
than the new one. -/
theorem stopping_old_nonrunning_counterexample :
    (performUpdate c4procs "binaries" "A" "v1.2.3" false c4env).1.stage = "completed" ∧
    c4oldStarting ∈ c4env.snapshot ∧
    ¬ c4oldStarting.id = "new1" ∧
    UEvent.stopGraceful c4oldStarting.id 30 ∉
      (performUpdate c4procs "binaries" "A" "v1.2.3" false c4env).2 := by
  decide

/-- Claim C4 (amended): in the stopping_old stage, every instance in the
snapshot other than the newly started one whose status is running is
stopped via the Process Manager's graceful stop with a 30 s timeout, and
stop failures do not abort the update — it still completes. -/
theorem stopping_old_stops_running_others (procs : List (String × ManagedProcess))
    (binariesDir processName targetVersion : String) (force : Bool) (env : UpdateEnv)
    (repo : String) (v : Version) (newInst : ProcessInstance)
    (hrepo : GetProcessRepository procs processName = repo)
    (hne : repo ≠ "")
    (hv : env.getVersion repo (if targetVersion == "" then "latest" else targetVersion) =
      Except.ok v)
    (hnot : alreadyOnTarget env.currentVersion v force = false)
    (hdl : env.fileExists (getBinaryPathForRepository binariesDir repo v.tag) = true ∨
      env.downloadResult = Except.ok ())
    (hstart : env.startResult = Except.ok newInst) :
    (performUpdate procs binariesDir processName targetVersion force env).1.stage =
      "completed" ∧
    ∀ i ∈ env.snapshot, ¬ i.id = newInst.id → i.status = ProcessStatus.running →
      UEvent.stopGraceful i.id 30 ∈
        (performUpdate procs binariesDir processName targetVersion force env).2 := by
  have hb : (repo == "") = false := beq_eq_false_iff_ne.mpr hne
  simp only [performUpdate, hrepo, hb, Bool.false_eq_true, if_false, hv, hnot]
  refine ⟨(stageDownloading_completed_mem binariesDir processName repo v env newInst
    hdl hstart).1, ?_⟩
  intro i hi hne' hr
  exact List.mem_cons_of_mem _
    ((stageDownloading_completed_mem binariesDir processName repo v env newInst
      hdl hstart).2 i hi hne' hr)

/-- Claim C4 (amended) witness: the running old instance old2 receives
the graceful 30 s stop and the update completes. -/
theorem stopping_old_stops_running_others_witness :
    c4oldRunning ∈ c4envRunning.snapshot ∧
    (performUpdate c4procs "binaries" "A" "v1.2.3" false c4envRunning).1.stage =
      "completed" ∧
    UEvent.stopGraceful "old2" 30 ∈
      (performUpdate c4procs "binaries" "A" "v1.2.3" false c4envRunning).2 :=
  ⟨by decide,
   (stopping_old_stops_running_others c4procs "binaries" "A" "v1.2.3" false c4envRunning
      "owner/R" { tag := "v1.2.3" }
      { id := "new1", processName := "A", status := ProcessStatus.running, pid := 42, port := 5002 }
      rfl (by decide) rfl rfl (Or.inr rfl) rfl).1,
   (stopping_old_stops_running_others c4procs "binaries" "A" "v1.2.3" false c4envRunning
      "owner/R" { tag := "v1.2.3" }
      { id := "new1", processName := "A", status := ProcessStatus.running, pid := 42, port := 5002 }
      rfl (by decide) rfl rfl (Or.inr rfl) rfl).2 c4oldRunning (by decide) (by decide) rfl⟩

/- ===== Claim C5 ===== -/

/-- Claim C5: when any provisioning start call fails, or the health gate
runs through its 10 polling iterations without ever seeing all new
instances simultaneously healthy, the hot restart fails with an error
and every newly started instance id receives a stop call — no new
instance survives a failed hot restart. -/
theorem hot_restart_rollback_on_failure (oldInstances : List ProcessInstance)
    (instanceId : String) (env : RestartEnv)
    (newIds : List String) (provErr : Option String)
    (hold : oldInstances ≠ [])
    (hprov : provision env.startResults (if instanceId != "" then 1 else oldInstances.length)
      0 [] = (newIds, provErr))
    (hfail : provErr.isSome ∨
      (provErr = none ∧ healthGatePass env.polls newIds 10 = false)) :
    (∃ e, (RestartProcess oldInstances instanceId env).1 = Except.error e) ∧
    ∀ id ∈ newIds, REvent.stopForce id ∈ (RestartProcess oldInstances instanceId env).2 := by
  have hne : oldInstances.isEmpty = false := by
    cases oldInstances with
    | nil => exact absurd rfl hold
    | cons a l => rfl
  simp only [RestartProcess, hne, Bool.false_eq_true, if_false, hprov]
  rcases hfail with hsome | ⟨hnone, hgate⟩
  · cases provErr with
    | none => simp at hsome
    | some e =>
      refine ⟨⟨"failed to start new instance: " ++ e, rfl⟩, ?_⟩
      intro id hid
      exact List.mem_map_of_mem REvent.stopForce hid
  · subst hnone
    simp only [hgate, Bool.false_eq_true, if_false]
    refine ⟨⟨"new instances failed to become healthy after 10 retries", rfl⟩, ?_⟩
    intro id hid
    exact List.mem_map_of_mem REvent.stopForce hid

/-- Claim C5 witness: the single provisioned instance new0 never becomes
healthy in any of the 10 polls, so it is stopped and the restart
errors. -/
theorem hot_restart_rollback_on_failure_witness :
    c5old ≠ [] ∧
    (∃ e, (RestartProcess c5old "" c5env).1 = Except.error e) ∧
    REvent.stopForce "new0" ∈ (RestartProcess c5old "" c5env).2 :=
  ⟨by decide,
   (hot_restart_rollback_on_failure c5old "" c5env ["new0"] none (by decide) (by decide)
      (Or.inr ⟨rfl, by decide⟩)).1,
   (hot_restart_rollback_on_failure c5old "" c5env ["new0"] none (by decide) (by decide)
      (Or.inr ⟨rfl, by decide⟩)).2 "new0" (by decide)⟩

/-- Claim C10 witness: with binary db_service_v1.2.3.exe configured and a
failing spawn, the registry is untouched while the version store now
records v1.2.3 for A. -/
theorem failed_spawn_frame_effect_witness :
    (StartProcess c10st c10env "A").result = Except.error StartError.spawnFailed ∧
    (StartProcess c10st c10env "A").state.processes = c10st.processes ∧
    (StartProcess c10st c10env "A").monitorSpawned = false ∧
    ¬ (StartProcess c10st c10env "A").state.versions = c10st.versions :=
  ⟨(failed_spawn_frame_effect c10st c10env "A"
      { config := { name := "A", binaryPath := "db_service_v1.2.3.exe", workDir := "w" } }
      5001 "w/db_service_v1.2.3.exe" "exec format error"
      rfl (by decide) rfl (by rfl) rfl rfl).1,
   (failed_spawn_frame_effect c10st c10env "A"
      { config := { name := "A", binaryPath := "db_service_v1.2.3.exe", workDir := "w" } }
      5001 "w/db_service_v1.2.3.exe" "exec format error"
      rfl (by decide) rfl (by rfl) rfl rfl).2.1,
   (failed_spawn_frame_effect c10st c10env "A"
      { config := { name := "A", binaryPath := "db_service_v1.2.3.exe", workDir := "w" } }
      5001 "w/db_service_v1.2.3.exe" "exec format error"
      rfl (by decide) rfl (by rfl) rfl rfl).2.2.1,
   by decide⟩


/- ===== Claim C1: repository-lock invariant ===== -/

/-- The invariant holds in every initial state. -/
theorem dlInv_init (sys : DlSys) (s : DlState) (h : DlInit s) : DlInv sys s := by
  obtain ⟨hph, hlock, hdl, hsc⟩ := h
  refine ⟨?_, ?_, ?_, ?_⟩
  · intro t ht
    rcases hph t with h1 | h1 <;> rcases ht with h2 | h2 <;>
      · rw [h1] at h2
        cases h2
  · intro t ht
    rcases hph t with h1 | h1 <;>
      · rw [h1] at ht
        cases ht
  · intro r _
    exact hsc r
  · intro r
    rw [hsc r]
    omega

/-- The invariant is preserved by every downloading-stage step,
DownloadVersion failures included. -/
theorem dlInv_step (sys : DlSys) (s s' : DlState) (hinv : DlInv sys s)
    (hstep : DlStep sys s s') : DlInv sys s' := by
  obtain ⟨hI1, hI2, hI3, hI4⟩ := hinv
  cases hstep with
  | acquire t hph hlock =>
    refine ⟨?_, ?_, ?_, ?_⟩
    · intro u hu
      by_cases hut : u = t
      · subst hut
        simp
      · simp only [hut, if_false] at hu
        have hlocku := hI1 u hu
        by_cases hr : sys.repoOf u = sys.repoOf t
        · rw [hr, hlock] at hlocku
          cases hlocku
        · simp only [hr, if_false]
          exact hlocku
    · intro u hu
      by_cases hut : u = t
      · subst hut
        simp only [if_pos rfl] at hu
        cases hu
      · simp only [hut, if_false] at hu
        exact hI2 u hu
    · intro r hfe
      exact hI3 r hfe
    · intro r
      exact hI4 r
  | skip t hph hfex =>
    refine ⟨?_, ?_, ?_, ?_⟩
    · intro u hu
      by_cases hut : u = t
      · subst hut
        simp only [if_pos rfl] at hu
        rcases hu with hu | hu <;> cases hu
      · simp only [hut, if_false] at hu
        have hlocku := hI1 u hu
        by_cases hr : sys.repoOf u = sys.repoOf t
        · have h1 := hI1 t (Or.inl hph)
          rw [hr, h1] at hlocku
          injection hlocku with h2
          exact absurd h2.symm hut
        · simp only [hr, if_false]
          exact hlocku
    · intro u hu
      by_cases hut : u = t
      · subst hut
        simp only [if_pos rfl] at hu
        cases hu
      · simp only [hut, if_false] at hu
        exact hI2 u hu
    · intro r hfe
      exact hI3 r hfe
    · intro r
      exact hI4 r
  | beginDownload t hph hfe =>
    refine ⟨?_, ?_, ?_, ?_⟩
    · intro u hu
      by_cases hut : u = t
      · subst hut
        exact hI1 u (Or.inl hph)
      · simp only [hut, if_false] at hu
        exact hI1 u hu
    · intro u hu
      by_cases hut : u = t
      · subst hut
        exact hfe
      · simp only [hut, if_false] at hu
        exact hI2 u hu
    · intro r hfe'
      exact hI3 r hfe'
    · intro r
      exact hI4 r
  | finishDownload t hph =>
    refine ⟨?_, ?_, ?_, ?_⟩
    · intro u hu
      by_cases hut : u = t
      · subst hut
        simp only [if_pos rfl] at hu
        rcases hu with hu | hu <;> cases hu
      · simp only [hut, if_false] at hu
        have hlocku := hI1 u hu
        by_cases hr : sys.repoOf u = sys.repoOf t
        · have h1 := hI1 t (Or.inr hph)
          rw [hr, h1] at hlocku
          injection hlocku with h2
          exact absurd h2.symm hut
        · simp only [hr, if_false]
          exact hlocku
    · intro u hu
      by_cases hut : u = t
      · subst hut
        simp only [if_pos rfl] at hu
        cases hu
      · simp only [hut, if_false] at hu
        by_cases hr : sys.repoOf u = sys.repoOf t
        · have hlocku := hI1 u (Or.inr hu)
          have h1 := hI1 t (Or.inr hph)
          rw [hr, h1] at hlocku
          injection hlocku with h2
          exact absurd h2.symm hut
        · simp only [hr, if_false]
          exact hI2 u hu
    · intro r hfe'
      by_cases hr : r = sys.repoOf t
      · simp only [hr, if_pos rfl] at hfe'
        cases hfe'
      · simp only [hr, if_false] at hfe' ⊢
        exact hI3 r hfe'
    · intro r
      by_cases hr : r = sys.repoOf t
      · have hz : s.successes (sys.repoOf t) = 0 := hI3 (sys.repoOf t) (hI2 t hph)
        simp [hr, hz]
      · simp only [hr, if_false]
        exact hI4 r
  | failDownload t hph =>
    refine ⟨?_, ?_, ?_, ?_⟩
    · intro u hu
      by_cases hut : u = t
      · subst hut
        simp only [if_pos rfl] at hu
        rcases hu with hu | hu <;> cases hu
      · simp only [hut, if_false] at hu
        have hlocku := hI1 u hu
        by_cases hr : sys.repoOf u = sys.repoOf t
        · have h1 := hI1 t (Or.inr hph)
          rw [hr, h1] at hlocku
          injection hlocku with h2
          exact absurd h2.symm hut
        · simp only [hr, if_false]
          exact hlocku
    · intro u hu
      by_cases hut : u = t
      · subst hut
        simp only [if_pos rfl] at hu
        cases hu
      · simp only [hut, if_false] at hu
        exact hI2 u hu
    · intro r hfe
      exact hI3 r hfe
    · intro r
      exact hI4 r

/-- Every state reachable from an initial state satisfies the
invariant. -/
theorem dlInv_reachable (sys : DlSys) (s0 s : DlState) (h0 : DlInit s0)
    (hr : DlReachable sys s0 s) : DlInv sys s := by
  induction hr with
  | refl => exact dlInv_init sys _ h0
  | tail hreach hstep ih => exact dlInv_step sys _ _ ih hstep

/-- Claim C1 (amended): in every state the downloading stage can reach
from an initial state, at most one pipeline thread is inside
DownloadVersion for any given repository — the repository-scoped mutex
serializes concurrent updates that share a repository — and at most one
download of each repository's artifact ever succeeds: once the artifact
is on disk every later waiter skips.  A failed download leaves no
artifact, so a later update may legitimately start a fresh download. -/
theorem repo_download_mutual_exclusion (sys : DlSys) (s0 s : DlState)
    (hinit : DlInit s0) (hreach : DlReachable sys s0 s) :
    (∀ t1 t2, s.phase t1 = DlPhase.downloading → s.phase t2 = DlPhase.downloading →
      sys.repoOf t1 = sys.repoOf t2 → t1 = t2) ∧
    (∀ r, s.successes r ≤ 1) := by
  obtain ⟨hI1, _, _, hI4⟩ := dlInv_reachable sys s0 s hinit hreach
  refine ⟨?_, hI4⟩
  intro t1 t2 h1 h2 hr
  have e1 := hI1 t1 (Or.inr h1)
  have e2 := hI1 t2 (Or.inr h2)
  rw [hr, e2] at e1
  injection e1 with h
  exact h.symm

/-- The concrete two-thread scenario starts in an initial state. -/
theorem c1s0_init : DlInit c1s0 :=
  ⟨fun _ => Or.inl rfl, fun _ => rfl, fun _ => rfl, fun _ => rfl⟩

/-- Thread 0 acquires the owner/R lock and begins the download: c1s2 is
reachable. -/
theorem c1s2_reachable : DlReachable c1sys c1s0 c1s2 :=
  DlReachable.tail
    (DlReachable.tail (DlReachable.refl c1s0) (DlStep.acquire 0 (s := c1s0) rfl rfl))
    (DlStep.beginDownload 0 (s := c1s1) rfl rfl)

/-- Thread 0's download fails, thread 1 acquires the freed lock, finds
no file, and begins a second download: c1s5 is reachable. -/
theorem c1s5_reachable : DlReachable c1sys c1s0 c1s5 :=
  DlReachable.tail
    (DlReachable.tail
      (DlReachable.tail c1s2_reachable (DlStep.failDownload 0 (s := c1s2) rfl))
      (DlStep.acquire 1 (s := c1s3) rfl rfl))
    (DlStep.beginDownload 1 (s := c1s4) rfl rfl)

/-- Claim C1 counterexample: the artifact can be pulled twice when a
download fails.  Thread 0 acquires the owner/R lock and its
DownloadVersion fails before the file is created; thread 1 then
acquires the freed lock, finds no file on disk, and starts a second
download of the same artifact — in the reachable state c1s5 two
downloads of owner/R's artifact have been started, refuting "the
artifact is pulled at most once" as stated. -/
theorem repo_download_at_most_once_counterexample :
    DlInit c1s0 ∧ DlReachable c1sys c1s0 c1s5 ∧
    ¬ c1s5.downloads "owner/R" ≤ 1 :=
  ⟨c1s0_init, c1s5_reachable, by decide⟩

/-- Claim C1 (amended) witness: in the reachable state where thread 0 is
downloading owner/R, any thread downloading owner/R is thread 0, and
owner/R's artifact has successfully been downloaded at most once. -/
theorem repo_download_mutual_exclusion_witness :
    (0 : Nat) = 0 ∧ c1s2.successes "owner/R" ≤ 1 :=
  ⟨(repo_download_mutual_exclusion c1sys c1s0 c1s2 c1s0_init c1s2_reachable).1 0 0
      rfl rfl rfl,
   (repo_download_mutual_exclusion c1sys c1s0 c1s2 c1s0_init c1s2_reachable).2 "owner/R"⟩
